import Mathlib

/-!
Verification of the layer serialization/deserialization core of
`keras/layers/serialization.py` (registry population and config-driven
instantiation), as a shallow embedding in Lean.

The file under `src/` is `keras/layers/serialization.py`.  The layer modules
it imports (`base_layer`, `normalization`, ...), as well as the helper
functions from `keras/utils/generic_utils.py`
(`populate_dict_with_module_objects`, `serialize_keras_object`,
`deserialize_keras_object`), are not part of the provided source; those
pieces are modelled from the specification and marked as such in their
doc comments.  Module contents, late-bound providers and the merge
functions are parameters of the embedding (an `Env`), since the real
modules are external to the provided source.
-/

namespace KerasSer

/-- A Python object as far as the registry is concerned: its `__name__`,
whether `inspect.isclass` holds of it, and whether it is a subclass of the
base `Layer` class (`base_layer.Layer`).  `id` distinguishes objects that
share a name (e.g. the v1 and v2 `BatchNormalization` classes). -/
structure Obj where
  name : String
  isClass : Bool
  isLayerSubclass : Bool
  id : Nat
deriving DecidableEq, Repr

/-- A Python `dict` from names to objects: an association list in which a
key occurs at most once; `dinsert` is `d[k] = v` (overwrite in place or
append), `dlookup` is `d.get(k)`. -/
abbrev Dict := List (String × Obj)

/-- `d[k] = v`: replace the binding of `k` if present, else append. -/
def dinsert (d : Dict) (k : String) (v : Obj) : Dict :=
  match d with
  | [] => [(k, v)]
  | (k1, v1) :: rest =>
      if k1 = k then (k, v) :: rest else (k1, v1) :: dinsert rest k v

/-- `d.get(k)`: the value bound to `k`, if any. -/
def dlookup (d : Dict) (k : String) : Option Obj :=
  match d with
  | [] => none
  | (k1, v) :: rest => if k1 = k then some v else dlookup rest k

/-- A module namespace, as enumerated by `populate_dict_with_module_objects`:
an ordered sequence of `(name, object)` entries. -/
abbrev Module := List (String × Obj)

/-- Modelled from the spec: `generic_utils.populate_dict_with_module_objects`
(not under `src/`) — "For every namespace in the module-collection set, for
every named entry satisfying the filter, insert `name → descriptor` into the
table.  Later namespaces in the set may overwrite earlier ones of the same
name — last-write-wins."  Entries of one namespace are processed in order. -/
def populateEntries (d : Dict) (es : List (String × Obj)) (f : Obj → Bool) : Dict :=
  match es with
  | [] => d
  | (n, o) :: rest => populateEntries (if f o then dinsert d n o else d) rest f

/-- Modelled from the spec: the outer loop of
`generic_utils.populate_dict_with_module_objects` over the module set. -/
def populate_dict_with_module_objects (d : Dict) (ms : List Module) (f : Obj → Bool) : Dict :=
  match ms with
  | [] => d
  | m :: rest => populate_dict_with_module_objects (populateEntries d m f) rest f

/-- The `obj_filter` passed by `populate_deserializable_objects`:
`lambda x: inspect.isclass(x) and issubclass(x, base_cls)` with
`base_cls = base_layer.Layer`. -/
def objFilter (x : Obj) : Bool :=
  x.isClass && x.isLayerSubclass

/-- The last binding of name `n` that passes the filter, among the entries of
one namespace (later entries shadow earlier ones). -/
def lastBindEntries (es : List (String × Obj)) (f : Obj → Bool) (n : String) : Option Obj :=
  match es with
  | [] => none
  | (n1, o) :: rest =>
      match lastBindEntries rest f n with
      | some r => some r
      | none => if n1 = n ∧ f o then some o else none

/-- The last binding of name `n` that passes the filter, across the whole
module-collection set (later namespaces shadow earlier ones). -/
def lastBind (ms : List Module) (f : Obj → Bool) (n : String) : Option Obj :=
  match ms with
  | [] => none
  | m :: rest =>
      match lastBind rest f n with
      | some r => some r
      | none => lastBindEntries m f n

/-- The providers obtained by the late-bound import block
(`from keras import models`, `LinearModel`, `WideDeepModel`,
`SequenceFeatures`) inside `populate_deserializable_objects`. -/
structure LateImported where
  models_Functional : Obj
  models_Model : Obj
  SequenceFeatures : Obj
  models_Sequential : Obj
  LinearModel : Obj
  WideDeepModel : Obj
deriving DecidableEq, Repr

/-- The external collaborators of `serialization.py`: the contents of the
eagerly imported layer modules (`ALL_MODULES`, `ALL_V2_MODULES`), the
eagerly imported individual providers, and the late-bound providers.
A late-bound import that fails (`ImportError`) is modelled by `none`. -/
structure Env where
  ALL_MODULES : List Module
  ALL_V2_MODULES : List Module
  normalization_BatchNormalization : Obj
  normalization_v2_BatchNormalization : Obj
  input_layer_Input : Obj
  input_spec_InputSpec : Obj
  late : Option LateImported
  dense_features_v2_DenseFeatures : Option Obj
  dense_features_DenseFeatures : Option Obj
  merge_add : Obj
  merge_subtract : Obj
  merge_multiply : Obj
  merge_average : Obj
  merge_maximum : Obj
  merge_minimum : Obj
  merge_concatenate : Obj
  merge_dot : Obj
deriving DecidableEq, Repr

/-- The thread-local state `LOCAL`: `none` models `not hasattr(LOCAL,
'ALL_OBJECTS')`; otherwise the pair `(ALL_OBJECTS, GENERATED_WITH_V2)`,
where the marker `none` models `GENERATED_WITH_V2 = None`. -/
abbrev LocalState := Option (Dict × Option Bool)

/-- The `ALL_OBJECTS` table of a state (empty when unset). -/
def tableOf (st : LocalState) : Dict :=
  (st.getD ([], none)).1

/-- The `GENERATED_WITH_V2` marker of a state (`none` when unset). -/
def markerOf (st : LocalState) : Option Bool :=
  (st.getD ([], none)).2

/-- The table after the two `populate_dict_with_module_objects` calls of
`populate_deserializable_objects`: `ALL_MODULES` always, then
`ALL_V2_MODULES` when `tf.__internal__.tf2.enabled()`. -/
def moduleStage (env : Env) (tf2 : Bool) : Dict :=
  let d := populate_dict_with_module_objects [] env.ALL_MODULES objFilter
  if tf2 then populate_dict_with_module_objects d env.ALL_V2_MODULES objFilter else d

/-- The table after the explicit alias assignments
`LOCAL.ALL_OBJECTS['BatchNormalizationV1'] = normalization.BatchNormalization`
and `LOCAL.ALL_OBJECTS['BatchNormalizationV2'] =
normalization_v2.BatchNormalization`. -/
def aliasStage (env : Env) (tf2 : Bool) : Dict :=
  dinsert (dinsert (moduleStage env tf2) "BatchNormalizationV1"
      env.normalization_BatchNormalization)
    "BatchNormalizationV2" env.normalization_v2_BatchNormalization

/-- The table after the assignments that follow the late-bound import block
(`LOCAL.ALL_OBJECTS['Input'] = input_layer.Input` through
`LOCAL.ALL_OBJECTS['WideDeepModel'] = WideDeepModel`), given the providers
`li` obtained by that import block. -/
def lateStage (env : Env) (tf2 : Bool) (li : LateImported) : Dict :=
  let d := aliasStage env tf2
  let d := dinsert d "Input" env.input_layer_Input
  let d := dinsert d "InputSpec" env.input_spec_InputSpec
  let d := dinsert d "Functional" li.models_Functional
  let d := dinsert d "Model" li.models_Model
  let d := dinsert d "SequenceFeatures" li.SequenceFeatures
  let d := dinsert d "Sequential" li.models_Sequential
  let d := dinsert d "LinearModel" li.LinearModel
  dinsert d "WideDeepModel" li.WideDeepModel

/-- The final table: the mode-dependent `DenseFeatures` assignment (`df` is
the provider the mode-conditional import yielded) followed by the merge
function shortcuts (`add` … `dot`). -/
def injectStage (env : Env) (tf2 : Bool) (li : LateImported) (df : Obj) : Dict :=
  let d := lateStage env tf2 li
  let d := dinsert d "DenseFeatures" df
  let d := dinsert d "add" env.merge_add
  let d := dinsert d "subtract" env.merge_subtract
  let d := dinsert d "multiply" env.merge_multiply
  let d := dinsert d "average" env.merge_average
  let d := dinsert d "maximum" env.merge_maximum
  let d := dinsert d "minimum" env.merge_minimum
  let d := dinsert d "concatenate" env.merge_concatenate
  dinsert d "dot" env.merge_dot

/-- The rebuild branch of `populate_deserializable_objects` (everything after
the fast-path check): it first sets `LOCAL.ALL_OBJECTS = {}` and
`LOCAL.GENERATED_WITH_V2 = tf2`, then repopulates in source order: the two
module-collection passes, the two `BatchNormalization` aliases, the
late-bound import block, the well-known-name assignments, the
mode-conditional `DenseFeatures` import, and the merge shortcuts.  An
exception (`.error`) carries the thread-local state left behind at the point
of failure, since the Python code mutates `LOCAL` in place with no handler. -/
def rebuild (env : Env) (tf2 : Bool) : Except LocalState LocalState :=
  match env.late with
  | none => .error (some (aliasStage env tf2, some tf2))
  | some li =>
      match (if tf2 then env.dense_features_v2_DenseFeatures
             else env.dense_features_DenseFeatures) with
      | none => .error (some (lateStage env tf2 li, some tf2))
      | some df => .ok (some (injectStage env tf2 li df, some tf2))

/-- `populate_deserializable_objects()`.  `tf2` is the value of
`tf.__internal__.tf2.enabled()` during the call; `st` is the thread-local
state on entry.  First the `hasattr` initialization, then the fast path
(`if LOCAL.ALL_OBJECTS and LOCAL.GENERATED_WITH_V2 == tf2: return`), else
the rebuild. -/
def populate_deserializable_objects (env : Env) (tf2 : Bool) (st : LocalState) :
    Except LocalState LocalState :=
  let p := st.getD ([], none)
  if p.1 ≠ [] ∧ p.2 = some tf2 then .ok (some p)
  else rebuild env tf2

/-! ### The resolver: tagged config records and recursive instantiation -/

mutual
/-- A value that can appear in a config: a primitive scalar, or a tagged
config record `{'class_name': tag, 'config': params}` whose params may
themselves contain such records. -/
inductive Value where
  | prim : Nat → Value
  | record : String → Params → Value
deriving DecidableEq, Repr
/-- The parameter bag of a record: an ordered string-keyed mapping. -/
inductive Params where
  | nil : Params
  | cons : String → Value → Params → Params
deriving DecidableEq, Repr
end

mutual
/-- A live object: a primitive, or a constructed instance carrying the
provider (class/callable) that constructed it and its resolved fields. -/
inductive Inst where
  | prim : Nat → Inst
  | node : Obj → Fields → Inst
deriving DecidableEq, Repr
/-- The resolved fields of a constructed instance. -/
inductive Fields where
  | nil : Fields
  | cons : String → Inst → Fields → Fields
deriving DecidableEq, Repr
end

/-- The errors of the resolver; `unknownType tag ctx` is the
`UnknownTypeError` naming the offending tag and the display context. -/
inductive DError where
  | unknownType : String → String → DError
deriving DecidableEq, Repr

/-- Modelled from the spec: tag resolution inside
`generic_utils.deserialize_keras_object` (not under `src/`) — "check
`overrides` first (if present, it wins unconditionally — caller intent
outranks built-ins); else look up in the Registry Table". -/
def resolveTag (overrides tbl : Dict) (tag : String) : Option Obj :=
  match dlookup overrides tag with
  | some p => some p
  | none => dlookup tbl tag

mutual
/-- Modelled from the spec: the recursive resolution of
`generic_utils.deserialize_keras_object` (not under `src/`) — resolve the
record's tag (overrides first, else table; `UnknownTypeError` naming the tag
and the display context if unresolved), recursively resolve every nested
record in the parameter bag with the same overrides, then construct the
resolved provider with the resolved parameter bag. -/
def resolveValue (overrides tbl : Dict) (ctx : String) : Value → Except DError Inst
  | .prim n => .ok (.prim n)
  | .record tag params =>
      match resolveTag overrides tbl tag with
      | none => .error (.unknownType tag ctx)
      | some p =>
          match resolveParams overrides tbl ctx params with
          | .error e => .error e
          | .ok fs => .ok (.node p fs)
/-- Recursive resolution of a parameter bag, in order. -/
def resolveParams (overrides tbl : Dict) (ctx : String) : Params → Except DError Fields
  | .nil => .ok .nil
  | .cons k v rest =>
      match resolveValue overrides tbl ctx v with
      | .error e => .error e
      | .ok i =>
          match resolveParams overrides tbl ctx rest with
          | .error e => .error e
          | .ok fs => .ok (.cons k i fs)
end

mutual
/-- Modelled from the spec: `generic_utils.serialize_keras_object` (not under
`src/`) — "produce `{tag: object's canonical type name, params: the object's
own declared configuration, recursively serializing any nested
constructible-type values}`", for instances whose configuration capability is
the faithful canonical one (field-by-field). -/
def serialize_keras_object : Inst → Value
  | .prim n => .prim n
  | .node cls fs => .record cls.name (serializeFields fs)
/-- Recursive serialization of an instance's fields. -/
def serializeFields : Fields → Params
  | .nil => .nil
  | .cons k i rest => .cons k (serialize_keras_object i) (serializeFields rest)
end

/-- `serialize(layer)` from `serialization.py`: delegates to
`generic_utils.serialize_keras_object`. -/
def serialize (layer : Inst) : Value :=
  serialize_keras_object layer

/-- `deserialize(config, custom_objects)` from `serialization.py`: call
`populate_deserializable_objects()` (whose `ImportError`, if any,
propagates), then `generic_utils.deserialize_keras_object(config,
module_objects=LOCAL.ALL_OBJECTS, custom_objects=custom_objects,
printable_module_name='layer')`.  The result pairs the thread-local state
after population with the resolution outcome. -/
def deserialize (env : Env) (tf2 : Bool) (st : LocalState) (config : Value)
    (custom_objects : Dict) : Except LocalState (LocalState × Except DError Inst) :=
  match populate_deserializable_objects env tf2 st with
  | .error s => .error s
  | .ok s => .ok (s, resolveValue custom_objects (tableOf s) "layer" config)

/-! ### Observers and predicates -/

/-- Whether a population run raised an exception. -/
def raised (r : Except LocalState LocalState) : Bool :=
  match r with
  | .error _ => true
  | .ok _ => false

/-- The thread-local state after a population run, whether it returned
normally or raised (Python mutates `LOCAL` in place, so the state survives
the exception). -/
def residual (r : Except LocalState LocalState) : LocalState :=
  match r with
  | .error s => s
  | .ok s => s

/-- The names assigned explicitly after the module-collection passes
(aliases, late-bound well-known names, `DenseFeatures`, merge shortcuts). -/
def injectedNames : List String :=
  ["BatchNormalizationV1", "BatchNormalizationV2", "Input", "InputSpec",
   "Functional", "Model", "SequenceFeatures", "Sequential", "LinearModel",
   "WideDeepModel", "DenseFeatures", "add", "subtract", "multiply",
   "average", "maximum", "minimum", "concatenate", "dot"]

/-- A thread-local state is well formed when it is untouched, freshly
initialized, or the result of a successful rebuild for some mode. -/
def WellFormed (env : Env) (st : LocalState) : Prop :=
  st = none ∨ st = some ([], none) ∨ ∃ m, rebuild env m = .ok st

mutual
/-- The "faithful round-trip" contract of an instance with respect to a
table: every class occurring in it resolves, with empty overrides, to
itself under its canonical name. -/
def faithfulIn (tbl : Dict) : Inst → Bool
  | .prim _ => true
  | .node cls fs => decide (dlookup tbl cls.name = some cls) && faithfulFields tbl fs
/-- `faithfulIn` on every field of an instance. -/
def faithfulFields (tbl : Dict) : Fields → Bool
  | .nil => true
  | .cons _ i rest => faithfulIn tbl i && faithfulFields tbl rest
end

/-! ### A concrete sample environment, mirroring the real module contents
where the claims need them (distinct v1/v2 `BatchNormalization` classes, a
name bound in both module-collection sets, a `Dense` class). -/

/-- The `Dense` layer class. -/
def denseObj : Obj := ⟨"Dense", true, true, 1⟩

/-- A caller-supplied replacement for `Dense`. -/
def customDenseObj : Obj := ⟨"CustomDense", true, true, 2⟩

/-- The v1 `BatchNormalization` class (`normalization.BatchNormalization`). -/
def bn1Obj : Obj := ⟨"BatchNormalization", true, true, 3⟩

/-- The v2 `BatchNormalization` class
(`normalization_v2.BatchNormalization`). -/
def bn2Obj : Obj := ⟨"BatchNormalization", true, true, 4⟩

/-- The v1 `LSTM` class (present in the baseline set). -/
def lstm1Obj : Obj := ⟨"LSTM", true, true, 5⟩

/-- The v2 `LSTM` class (present in the mode-specific set). -/
def lstm2Obj : Obj := ⟨"LSTM", true, true, 6⟩

/-- The `Input` free function (not a class, filtered out of module passes). -/
def inputFnObj : Obj := ⟨"Input", false, false, 7⟩

/-- The `InputSpec` class (not a `Layer` subclass). -/
def inputSpecObj : Obj := ⟨"InputSpec", true, false, 8⟩

/-- The late-imported well-known providers. -/
def lateW : LateImported :=
  ⟨⟨"Functional", true, true, 9⟩, ⟨"Model", true, true, 10⟩,
   ⟨"SequenceFeatures", true, true, 11⟩, ⟨"Sequential", true, true, 12⟩,
   ⟨"LinearModel", true, true, 13⟩, ⟨"WideDeepModel", true, true, 14⟩⟩

/-- The v2 `DenseFeatures` class. -/
def df2Obj : Obj := ⟨"DenseFeatures", true, true, 15⟩

/-- The v1 `DenseFeatures` class. -/
def df1Obj : Obj := ⟨"DenseFeatures", true, true, 16⟩

/-- A stale object, populated in an earlier-generation table. -/
def oldObj : Obj := ⟨"Old", true, true, 30⟩

/-- A sample environment in which every import succeeds. -/
def envW : Env :=
  { ALL_MODULES := [[("Dense", denseObj), ("BatchNormalization", bn1Obj),
      ("LSTM", lstm1Obj), ("Input", inputFnObj)]],
    ALL_V2_MODULES := [[("BatchNormalization", bn2Obj), ("LSTM", lstm2Obj)]],
    normalization_BatchNormalization := bn1Obj,
    normalization_v2_BatchNormalization := bn2Obj,
    input_layer_Input := inputFnObj,
    input_spec_InputSpec := inputSpecObj,
    late := some lateW,
    dense_features_v2_DenseFeatures := some df2Obj,
    dense_features_DenseFeatures := some df1Obj,
    merge_add := ⟨"add", false, false, 17⟩,
    merge_subtract := ⟨"subtract", false, false, 18⟩,
    merge_multiply := ⟨"multiply", false, false, 19⟩,
    merge_average := ⟨"average", false, false, 20⟩,
    merge_maximum := ⟨"maximum", false, false, 21⟩,
    merge_minimum := ⟨"minimum", false, false, 22⟩,
    merge_concatenate := ⟨"concatenate", false, false, 23⟩,
    merge_dot := ⟨"dot", false, false, 24⟩ }

/-- The sample environment with a failing late-bound import block. -/
def envBadLate : Env :=
  { envW with late := none }

/-- The sample environment in which the v2 `DenseFeatures` import fails. -/
def envBadDF : Env :=
  { envW with dense_features_v2_DenseFeatures := none }

/-- The thread-local state after a successful v2-mode population from a
fresh thread in the sample environment. -/
def stW : LocalState :=
  residual (populate_deserializable_objects envW true none)

/-- A stale state: a nonempty table recorded as built with the mode flag
off. -/
def stOld : LocalState :=
  some ([("Old", oldObj)], some false)

/-! ### Basic dictionary lemmas -/

theorem dinsert_ne_nil (d : Dict) (k : String) (v : Obj) : dinsert d k v ≠ [] := by
  cases d with
  | nil => simp [dinsert]
  | cons p rest =>
      obtain ⟨k1, v1⟩ := p
      by_cases h : k1 = k <;> simp [dinsert, h]

theorem dlookup_dinsert_self (d : Dict) (k : String) (v : Obj) :
    dlookup (dinsert d k v) k = some v := by
  induction d with
  | nil => simp [dinsert, dlookup]
  | cons p rest ih =>
      obtain ⟨k1, v1⟩ := p
      by_cases h : k1 = k <;> simp [dinsert, dlookup, h, ih]

theorem dlookup_dinsert_ne (d : Dict) (k : String) (v : Obj) (n : String)
    (h : n ≠ k) : dlookup (dinsert d k v) n = dlookup d n := by
  have hk : ¬k = n := fun hkn => h hkn.symm
  induction d with
  | nil => simp [dinsert, dlookup, hk]
  | cons p rest ih =>
      obtain ⟨k1, v1⟩ := p
      by_cases h1 : k1 = k
      · subst h1
        simp [dinsert, dlookup, hk]
      · by_cases h2 : k1 = n
        · subst h2
          simp [dinsert, dlookup, h1]
        · simp [dinsert, dlookup, h1, h2, ih]

/-- Lookup after populating one namespace: the last filtered binding of the
name in the namespace, if any, else the previous binding. -/
theorem dlookup_populateEntries (es : List (String × Obj)) :
    ∀ (d : Dict) (f : Obj → Bool) (n : String),
      dlookup (populateEntries d es f) n =
        (match lastBindEntries es f n with
         | some v => some v
         | none => dlookup d n) := by
  induction es with
  | nil => intro d f n; rfl
  | cons p rest ih =>
      intro d f n
      obtain ⟨n1, o⟩ := p
      simp only [populateEntries, lastBindEntries]
      rw [ih]
      cases hres : lastBindEntries rest f n with
      | some v => rfl
      | none =>
          by_cases h1 : n1 = n
          · subst h1
            by_cases h2 : f o = true
            · simp [h2, dlookup_dinsert_self]
            · simp [h2]
          · by_cases h2 : f o = true
            · simp [h1, h2, dlookup_dinsert_ne _ _ _ _ (fun hn => h1 hn.symm)]
            · simp [h1, h2]

/-- Lookup after populating a whole module-collection set: the last filtered
binding of the name across the set, if any, else the previous binding. -/
theorem dlookup_populate_dict (ms : List Module) :
    ∀ (d : Dict) (f : Obj → Bool) (n : String),
      dlookup (populate_dict_with_module_objects d ms f) n =
        (match lastBind ms f n with
         | some v => some v
         | none => dlookup d n) := by
  induction ms with
  | nil => intro d f n; rfl
  | cons m rest ih =>
      intro d f n
      simp only [populate_dict_with_module_objects, lastBind]
      rw [ih]
      cases hres : lastBind rest f n with
      | some v => rfl
      | none =>
          rw [dlookup_populateEntries]

/-- A name not explicitly assigned after the module passes keeps, in the
final table, the binding the module passes gave it. -/
theorem dlookup_injectStage (env : Env) (tf2 : Bool) (li : LateImported)
    (df : Obj) (n : String) (h : n ∉ injectedNames) :
    dlookup (injectStage env tf2 li df) n = dlookup (moduleStage env tf2) n := by
  simp only [injectedNames, List.mem_cons, List.not_mem_nil, not_or, or_false] at h
  obtain ⟨h1, h2, h3, h4, h5, h6, h7, h8, h9, h10, h11, h12, h13, h14, h15,
    h16, h17, h18, h19⟩ := h
  simp only [injectStage, lateStage, aliasStage]
  rw [dlookup_dinsert_ne _ _ _ _ h19, dlookup_dinsert_ne _ _ _ _ h18,
    dlookup_dinsert_ne _ _ _ _ h17, dlookup_dinsert_ne _ _ _ _ h16,
    dlookup_dinsert_ne _ _ _ _ h15, dlookup_dinsert_ne _ _ _ _ h14,
    dlookup_dinsert_ne _ _ _ _ h13, dlookup_dinsert_ne _ _ _ _ h12,
    dlookup_dinsert_ne _ _ _ _ h11, dlookup_dinsert_ne _ _ _ _ h10,
    dlookup_dinsert_ne _ _ _ _ h9, dlookup_dinsert_ne _ _ _ _ h8,
    dlookup_dinsert_ne _ _ _ _ h7, dlookup_dinsert_ne _ _ _ _ h6,
    dlookup_dinsert_ne _ _ _ _ h5, dlookup_dinsert_ne _ _ _ _ h4,
    dlookup_dinsert_ne _ _ _ _ h3, dlookup_dinsert_ne _ _ _ _ h2,
    dlookup_dinsert_ne _ _ _ _ h1]

/-- A successful rebuild yields exactly the fully injected table for the
current mode, with the marker set to the current mode. -/
theorem rebuild_ok (env : Env) (tf2 : Bool) (st : LocalState)
    (h : rebuild env tf2 = .ok st) :
    ∃ li df, env.late = some li ∧
      (if tf2 then env.dense_features_v2_DenseFeatures
       else env.dense_features_DenseFeatures) = some df ∧
      st = some (injectStage env tf2 li df, some tf2) := by
  unfold rebuild at h
  cases hl : env.late with
  | none => rw [hl] at h; exact absurd h (by simp)
  | some li =>
      rw [hl] at h
      cases hd : (if tf2 then env.dense_features_v2_DenseFeatures
                  else env.dense_features_DenseFeatures) with
      | none => rw [hd] at h; exact absurd h (by simp)
      | some df =>
          rw [hd] at h
          simp only [Except.ok.injEq] at h
          exact ⟨li, df, rfl, rfl, h.symm⟩

/-- The final table is never empty (its construction ends in an insertion). -/
theorem injectStage_ne_nil (env : Env) (tf2 : Bool) (li : LateImported)
    (df : Obj) : injectStage env tf2 li df ≠ [] := by
  simp only [injectStage]
  exact dinsert_ne_nil _ _ _

/-- A rebuild, successful or not, always sets the marker to the current
mode (the code records the mode before populating). -/
theorem rebuild_marker (env : Env) (tf2 : Bool) :
    (∀ st, rebuild env tf2 = .ok st → markerOf st = some tf2) ∧
    (∀ st, rebuild env tf2 = .error st → markerOf st = some tf2) := by
  constructor <;> intro st h <;> unfold rebuild at h
  · cases hl : env.late with
    | none => rw [hl] at h; exact absurd h (by simp)
    | some li =>
        rw [hl] at h
        cases hd : (if tf2 then env.dense_features_v2_DenseFeatures
                    else env.dense_features_DenseFeatures) with
        | none => rw [hd] at h; exact absurd h (by simp)
        | some df =>
            rw [hd] at h
            simp only [Except.ok.injEq] at h
            rw [← h]; rfl
  · cases hl : env.late with
    | none =>
        rw [hl] at h
        simp only [Except.error.injEq] at h
        rw [← h]; rfl
    | some li =>
        rw [hl] at h
        cases hd : (if tf2 then env.dense_features_v2_DenseFeatures
                    else env.dense_features_DenseFeatures) with
        | none =>
            rw [hd] at h
            simp only [Except.error.injEq] at h
            rw [← h]; rfl
        | some df => rw [hd] at h; exact absurd h (by simp)

/-- The values of the well-known injected names in the final table. -/
theorem injectStage_lookups (env : Env) (tf2 : Bool) (li : LateImported)
    (df : Obj) :
    dlookup (injectStage env tf2 li df) "BatchNormalizationV1" =
      some env.normalization_BatchNormalization ∧
    dlookup (injectStage env tf2 li df) "BatchNormalizationV2" =
      some env.normalization_v2_BatchNormalization ∧
    dlookup (injectStage env tf2 li df) "Input" = some env.input_layer_Input ∧
    dlookup (injectStage env tf2 li df) "Model" = some li.models_Model ∧
    dlookup (injectStage env tf2 li df) "Sequential" = some li.models_Sequential ∧
    dlookup (injectStage env tf2 li df) "DenseFeatures" = some df ∧
    dlookup (injectStage env tf2 li df) "add" = some env.merge_add := by
  refine ⟨?_, ?_, ?_, ?_, ?_, ?_, ?_⟩ <;>
    simp only [injectStage, lateStage, aliasStage] <;>
    simp +decide [dlookup_dinsert_ne, dlookup_dinsert_self]

/-- A binding returned by `lastBindEntries` passed the filter. -/
theorem lastBindEntries_filter (es : List (String × Obj)) (f : Obj → Bool)
    (n : String) (v : Obj) (h : lastBindEntries es f n = some v) : f v = true := by
  induction es with
  | nil => exact absurd h (by simp [lastBindEntries])
  | cons p rest ih =>
      obtain ⟨n1, o⟩ := p
      simp only [lastBindEntries] at h
      cases hres : lastBindEntries rest f n with
      | some r =>
          rw [hres] at h
          simp only [Option.some.injEq] at h
          subst h
          exact ih hres
      | none =>
          rw [hres] at h
          by_cases hc : n1 = n ∧ f o = true
          · rw [if_pos hc] at h
            simp only [Option.some.injEq] at h
            exact h ▸ hc.2
          · rw [if_neg hc] at h
            exact absurd h (by simp)

/-- A binding returned by `lastBind` passed the filter. -/
theorem lastBind_filter (ms : List Module) (f : Obj → Bool) (n : String)
    (v : Obj) (h : lastBind ms f n = some v) : f v = true := by
  induction ms with
  | nil => exact absurd h (by simp [lastBind])
  | cons m rest ih =>
      simp only [lastBind] at h
      cases hres : lastBind rest f n with
      | some r =>
          rw [hres] at h
          simp only [Option.some.injEq] at h
          subst h
          exact ih hres
      | none =>
          rw [hres] at h
          exact lastBindEntries_filter m f n v h

/-! ### Round-trip lemmas -/

mutual
/-- Resolution undoes serialization on an instance whose classes all resolve
to themselves in the table (with empty overrides). -/
theorem resolveValue_serialize (tbl : Dict) (ctx : String) (x : Inst)
    (h : faithfulIn tbl x = true) :
    resolveValue [] tbl ctx (serialize_keras_object x) = .ok x := by
  cases x with
  | prim n => rfl
  | node cls fs =>
      simp only [faithfulIn, Bool.and_eq_true, decide_eq_true_eq] at h
      simp only [serialize_keras_object, resolveValue, resolveTag, dlookup]
      rw [h.1, resolveParams_serialize tbl ctx fs h.2]
/-- Resolution undoes serialization on the fields of such an instance. -/
theorem resolveParams_serialize (tbl : Dict) (ctx : String) (fs : Fields)
    (h : faithfulFields tbl fs = true) :
    resolveParams [] tbl ctx (serializeFields fs) = .ok fs := by
  cases fs with
  | nil => rfl
  | cons k i rest =>
      simp only [faithfulFields, Bool.and_eq_true] at h
      simp only [serializeFields, resolveParams]
      rw [resolveValue_serialize tbl ctx i h.1,
        resolveParams_serialize tbl ctx rest h.2]
end

/-- `populate_deserializable_objects` written as its fast-path test. -/
theorem populate_eq (env : Env) (tf2 : Bool) (st : LocalState) :
    populate_deserializable_objects env tf2 st =
      if (st.getD ([], none)).1 ≠ [] ∧ (st.getD ([], none)).2 = some tf2
      then .ok (some (st.getD ([], none)))
      else rebuild env tf2 := rfl

/-- The module-population stage in v2 mode: both passes. -/
theorem moduleStage_true (env : Env) :
    moduleStage env true =
      populate_dict_with_module_objects
        (populate_dict_with_module_objects [] env.ALL_MODULES objFilter)
        env.ALL_V2_MODULES objFilter := rfl

/-- The module-population stage in v1 mode: the baseline pass only. -/
theorem moduleStage_false (env : Env) :
    moduleStage env false =
      populate_dict_with_module_objects [] env.ALL_MODULES objFilter := rfl

/-- The fast path: a nonempty table with a matching marker is returned
unchanged. -/
theorem populate_fastpath (env : Env) (tf2 : Bool) (D : Dict) (hne : D ≠ []) :
    populate_deserializable_objects env tf2 (some (D, some tf2)) =
      .ok (some (D, some tf2)) := by
  rw [populate_eq]
  simp only [Option.getD_some]
  rw [if_pos ⟨hne, trivial⟩]

/-- An empty table is rebuilt even when the marker matches. -/
theorem populate_empty_rebuilds (env : Env) (tf2 : Bool) (m : Option Bool) :
    populate_deserializable_objects env tf2 (some ([], m)) = rebuild env tf2 := by
  rw [populate_eq]
  simp only [Option.getD_some]
  rw [if_neg (fun hh => hh.1 rfl)]

/-! ### The claims -/

/-- C5: calling `populate_deserializable_objects` twice in the same scope
with no mode-flag change in between leaves the state unchanged: the second
call returns the state of the first call as-is (fast-path no-op). -/
theorem claim5_idempotent (env : Env) (tf2 : Bool) (st st' : LocalState)
    (h : populate_deserializable_objects env tf2 st = .ok st') :
    populate_deserializable_objects env tf2 st' = .ok st' := by
  rw [populate_eq] at h
  by_cases hc : (st.getD ([], none)).1 ≠ [] ∧ (st.getD ([], none)).2 = some tf2
  · rw [if_pos hc] at h
    simp only [Except.ok.injEq] at h
    subst h
    rw [populate_eq]
    simp only [Option.getD_some]
    rw [if_pos hc]
  · rw [if_neg hc] at h
    obtain ⟨li, df, hli, hdf, hst⟩ := rebuild_ok env tf2 st' h
    subst hst
    exact populate_fastpath env tf2 _ (injectStage_ne_nil env tf2 li df)

/-- Witness for C5: a concrete first call succeeds and the second call
returns its state unchanged. -/
theorem claim5_witness :
    populate_deserializable_objects envW true none = .ok stW ∧
    populate_deserializable_objects envW true stW = .ok stW :=
  ⟨rfl, claim5_idempotent envW true none stW rfl⟩

/-- C10: a successful rebuild, in either mode, leaves a table containing the
unconditionally injected names (hence nonempty); that nonemptiness is what
lets the fast path — which tests table nonemptiness plus marker equality,
not mere existence — take the no-op branch on the next call, while an empty
table with a matching marker is rebuilt. -/
theorem claim10_injections (env : Env) (tf2 : Bool) (st' : LocalState)
    (h : rebuild env tf2 = .ok st') :
    (dlookup (tableOf st') "BatchNormalizationV1").isSome = true ∧
    (dlookup (tableOf st') "Input").isSome = true ∧
    (dlookup (tableOf st') "Model").isSome = true ∧
    (dlookup (tableOf st') "Sequential").isSome = true ∧
    (dlookup (tableOf st') "DenseFeatures").isSome = true ∧
    (dlookup (tableOf st') "add").isSome = true ∧
    tableOf st' ≠ [] ∧
    populate_deserializable_objects env tf2 st' = .ok st' ∧
    populate_deserializable_objects env tf2 (some ([], some tf2)) =
      rebuild env tf2 := by
  obtain ⟨li, df, hli, hdf, hst⟩ := rebuild_ok env tf2 st' h
  subst hst
  obtain ⟨l1, l2, l3, l4, l5, l6, l7⟩ := injectStage_lookups env tf2 li df
  have hne := injectStage_ne_nil env tf2 li df
  refine ⟨?_, ?_, ?_, ?_, ?_, ?_, ?_, ?_, ?_⟩
  · simp [tableOf, l1]
  · simp [tableOf, l3]
  · simp [tableOf, l4]
  · simp [tableOf, l5]
  · simp [tableOf, l6]
  · simp [tableOf, l7]
  · simpa [tableOf] using hne
  · exact populate_fastpath env tf2 _ hne
  · exact populate_empty_rebuilds env tf2 (some tf2)

/-- Witness for C10: the sample v2-mode rebuild. -/
theorem claim10_witness :
    rebuild envW true = .ok stW ∧
    ((dlookup (tableOf stW) "BatchNormalizationV1").isSome = true ∧
     (dlookup (tableOf stW) "Input").isSome = true ∧
     (dlookup (tableOf stW) "Model").isSome = true ∧
     (dlookup (tableOf stW) "Sequential").isSome = true ∧
     (dlookup (tableOf stW) "DenseFeatures").isSome = true ∧
     (dlookup (tableOf stW) "add").isSome = true ∧
     tableOf stW ≠ [] ∧
     populate_deserializable_objects envW true stW = .ok stW ∧
     populate_deserializable_objects envW true (some ([], some true)) =
       rebuild envW true) :=
  ⟨rfl, claim10_injections envW true stW rfl⟩

/-- C8 counterexample: the last-build mode marker is NOT recorded as the
final step of the rebuild — the code records it before populating.  With a
failing mode-conditional `DenseFeatures` import, population from a stale
v1-mode state aborts, yet the residual marker already reads `true` while
the table lacks `DenseFeatures`; the next call then takes the fast path and
returns this incomplete table as if the v2 build had completed. -/
theorem claim8_counterexample :
    raised (populate_deserializable_objects envBadDF true stOld) = true ∧
    markerOf (residual (populate_deserializable_objects envBadDF true stOld)) =
      some true ∧
    markerOf stOld = some false ∧
    dlookup (tableOf (residual (populate_deserializable_objects envBadDF true
      stOld))) "DenseFeatures" = none ∧
    populate_deserializable_objects envBadDF true
        (residual (populate_deserializable_objects envBadDF true stOld)) =
      .ok (residual (populate_deserializable_objects envBadDF true stOld)) :=
  ⟨rfl, rfl, rfl, rfl, rfl⟩

/-- C8 amended: the marker is recorded at the start of the rebuild, not as
its final step; still, whenever `populate_deserializable_objects` returns
normally from a well-formed state (untouched, freshly initialized, or left
by a successful build), the resulting state is exactly a successful rebuild
for the current mode value, which is also the recorded marker — so such
callers never observe a table mixing entries of different modes. -/
theorem claim8_consistency_amended (env : Env) (tf2 : Bool) (st st' : LocalState)
    (hwf : WellFormed env st)
    (h : populate_deserializable_objects env tf2 st = .ok st') :
    rebuild env tf2 = .ok st' ∧ markerOf st' = some tf2 := by
  rw [populate_eq] at h
  by_cases hc : (st.getD ([], none)).1 ≠ [] ∧ (st.getD ([], none)).2 = some tf2
  · rw [if_pos hc] at h
    simp only [Except.ok.injEq] at h
    rcases hwf with hw | hw | ⟨m, hm⟩
    · subst hw
      exact absurd rfl hc.1
    · subst hw
      exact absurd rfl hc.1
    · obtain ⟨li, df, hli, hdf, hst⟩ := rebuild_ok env m st hm
      subst hst
      simp only [Option.getD_some] at h hc
      have hmode : m = tf2 := by
        have := hc.2
        simpa using this
      subst hmode
      subst h
      exact ⟨hm, rfl⟩
  · rw [if_neg hc] at h
    exact ⟨h, (rebuild_marker env tf2).1 st' h⟩

/-- Witness for C8: a fresh thread in the sample environment. -/
theorem claim8_witness :
    (WellFormed envW none ∧
     populate_deserializable_objects envW true none = .ok stW) ∧
    (rebuild envW true = .ok stW ∧ markerOf stW = some true) :=
  ⟨⟨Or.inl rfl, rfl⟩, claim8_consistency_amended envW true none stW (Or.inl rfl) rfl⟩

/-- C4: when the thread state was built under a different mode flag value,
the next `populate_deserializable_objects` call rebuilds from scratch
(its result is the rebuild, independent of the stale table); and in the
rebuilt v2-mode table every name bound (and filter-accepted) in the
mode-specific module set — and not shadowed by the explicit injections —
resolves to the mode-specific set's last binding, overwriting the
baseline entry. -/
theorem claim4_mode_rebuild (env : Env) (tf2 m0 : Bool) (d0 : Dict)
    (st' : LocalState) (n : String) (b : Obj)
    (hmode : m0 ≠ tf2)
    (htf2 : tf2 = true)
    (hreb : rebuild env tf2 = .ok st')
    (hn : n ∉ injectedNames)
    (hb : lastBind env.ALL_V2_MODULES objFilter n = some b) :
    populate_deserializable_objects env tf2 (some (d0, some m0)) =
      rebuild env tf2 ∧
    dlookup (tableOf st') n = some b := by
  constructor
  · rw [populate_eq]
    simp only [Option.getD_some]
    rw [if_neg]
    intro hh
    exact hmode (by simpa using hh.2)
  · obtain ⟨li, df, hli, hdf, hst⟩ := rebuild_ok env tf2 st' hreb
    subst hst
    simp only [tableOf, Option.getD_some]
    rw [dlookup_injectStage env tf2 li df n hn]
    subst htf2
    rw [moduleStage_true, dlookup_populate_dict, hb]

/-- Witness for C4: flipping the mode from `false` to `true` rebuilds, and
`"LSTM"` — bound in both sets of the sample environment — resolves to the
mode-specific class. -/
theorem claim4_witness :
    ((false : Bool) ≠ true ∧ (true : Bool) = true ∧
     rebuild envW true = .ok stW ∧ "LSTM" ∉ injectedNames ∧
     lastBind envW.ALL_V2_MODULES objFilter "LSTM" = some lstm2Obj) ∧
    (populate_deserializable_objects envW true (some ([], some false)) =
       rebuild envW true ∧
     dlookup (tableOf stW) "LSTM" = some lstm2Obj) :=
  ⟨⟨by decide, rfl, rfl, by decide, rfl⟩,
   claim4_mode_rebuild envW true false [] stW "LSTM" lstm2Obj (by decide) rfl
     rfl (by decide) rfl⟩

/-- C6: a name resolves in the module-population stage exactly to the last
binding across the collection that passes the `obj_filter` (so an entry is
inserted iff its value is a class subclassing the base `Layer`, with later
namespaces overwriting earlier ones); the v2 pass overlays the baseline
pass the same way; and every resolvable value passed the filter. -/
theorem claim6_filter_last_wins (env : Env) (tf2 : Bool) (n : String) (v : Obj) :
    (dlookup (moduleStage env false) n = some v ↔
      lastBind env.ALL_MODULES objFilter n = some v) ∧
    (dlookup (moduleStage env true) n =
      (match lastBind env.ALL_V2_MODULES objFilter n with
       | some w => some w
       | none => dlookup (moduleStage env false) n)) ∧
    (dlookup (moduleStage env tf2) n = some v →
      v.isClass = true ∧ v.isLayerSubclass = true) := by
  have keyBase := dlookup_populate_dict env.ALL_MODULES [] objFilter n
  have keyV2 := dlookup_populate_dict env.ALL_V2_MODULES
    (populate_dict_with_module_objects [] env.ALL_MODULES objFilter) objFilter n
  refine ⟨?_, ?_, ?_⟩
  · rw [moduleStage_false, keyBase]
    cases h : lastBind env.ALL_MODULES objFilter n with
    | some w => simp
    | none => simp [dlookup]
  · rw [moduleStage_true, moduleStage_false, keyV2]
  · intro hl
    have hfil : objFilter v = true := by
      cases tf2 with
      | false =>
          rw [moduleStage_false, keyBase] at hl
          cases h : lastBind env.ALL_MODULES objFilter n with
          | some w =>
              rw [h] at hl
              simp only [Option.some.injEq] at hl
              subst hl
              exact lastBind_filter _ _ _ _ h
          | none =>
              rw [h] at hl
              exact absurd hl (by simp [dlookup])
      | true =>
          rw [moduleStage_true, keyV2] at hl
          cases h : lastBind env.ALL_V2_MODULES objFilter n with
          | some w =>
              rw [h] at hl
              simp only [Option.some.injEq] at hl
              subst hl
              exact lastBind_filter _ _ _ _ h
          | none =>
              rw [h, keyBase] at hl
              cases h2 : lastBind env.ALL_MODULES objFilter n with
              | some w =>
                  rw [h2] at hl
                  simp only [Option.some.injEq] at hl
                  subst hl
                  exact lastBind_filter _ _ _ _ h2
              | none =>
                  rw [h2] at hl
                  exact absurd hl (by simp [dlookup])
    simpa [objFilter, Bool.and_eq_true] using hfil

/-- C1: a tag present in both the caller-supplied overrides and the built-in
table is resolved by `deserialize` to the override's provider,
unconditionally — the constructed instance carries the override, not the
built-in entry. -/
theorem claim1_override_precedence (env : Env) (tf2 : Bool) (st st' : LocalState)
    (overrides : Dict) (tag : String) (p q : Obj)
    (hpop : populate_deserializable_objects env tf2 st = .ok st')
    (hov : dlookup overrides tag = some p)
    (_htbl : dlookup (tableOf st') tag = some q) :
    deserialize env tf2 st (.record tag .nil) overrides =
      .ok (st', .ok (.node p .nil)) := by
  unfold deserialize
  rw [hpop]
  simp only [resolveValue, resolveTag, hov, resolveParams]

/-- Witness for C1: overriding `"Dense"` — also present in the built-in
table — yields an instance of the custom class, not the built-in one. -/
theorem claim1_witness :
    (populate_deserializable_objects envW true none = .ok stW ∧
     dlookup [("Dense", customDenseObj)] "Dense" = some customDenseObj ∧
     dlookup (tableOf stW) "Dense" = some denseObj) ∧
    deserialize envW true none (.record "Dense" .nil)
        [("Dense", customDenseObj)] =
      .ok (stW, .ok (.node customDenseObj .nil)) :=
  ⟨⟨rfl, rfl, rfl⟩,
   claim1_override_precedence envW true none stW [("Dense", customDenseObj)]
     "Dense" customDenseObj denseObj rfl rfl rfl⟩

/-- C7: a config whose tag is absent from both the overrides and the
populated table makes `deserialize` fail with `UnknownTypeError` naming the
tag and the display context `"layer"`; no object is constructed. -/
theorem claim7_unknown_tag (env : Env) (tf2 : Bool) (st st' : LocalState)
    (overrides : Dict) (tag : String) (ps : Params)
    (hpop : populate_deserializable_objects env tf2 st = .ok st')
    (hov : dlookup overrides tag = none)
    (htbl : dlookup (tableOf st') tag = none) :
    deserialize env tf2 st (.record tag ps) overrides =
      .ok (st', .error (.unknownType tag "layer")) := by
  unfold deserialize
  rw [hpop]
  simp only [resolveValue, resolveTag, hov, htbl]

/-- Witness for C7: `deserialize` of tag `"NoSuchType"` with empty overrides
raises `UnknownTypeError` naming `"NoSuchType"` and `"layer"`. -/
theorem claim7_witness :
    (populate_deserializable_objects envW true none = .ok stW ∧
     dlookup [] "NoSuchType" = none ∧
     dlookup (tableOf stW) "NoSuchType" = none) ∧
    deserialize envW true none (.record "NoSuchType" .nil) [] =
      .ok (stW, .error (.unknownType "NoSuchType" "layer")) :=
  ⟨⟨rfl, rfl, rfl⟩,
   claim7_unknown_tag envW true none stW [] "NoSuchType" .nil rfl rfl rfl⟩

/-- C9: for an instance whose classes all satisfy the faithful round-trip
contract with the populated table (each resolves, with empty overrides, to
itself under its canonical name), `deserialize (serialize x)` with empty
overrides reconstructs `x` exactly. -/
theorem claim9_round_trip (env : Env) (tf2 : Bool) (st st' : LocalState)
    (x : Inst)
    (hpop : populate_deserializable_objects env tf2 st = .ok st')
    (hfaith : faithfulIn (tableOf st') x = true) :
    deserialize env tf2 st (serialize x) [] = .ok (st', .ok x) := by
  unfold deserialize serialize
  rw [hpop]
  show Except.ok (st', resolveValue [] (tableOf st') "layer"
    (serialize_keras_object x)) = Except.ok (st', Except.ok x)
  rw [resolveValue_serialize (tableOf st') "layer" x hfaith]

/-- Witness for C9: a `Dense` instance with a nested v2
`BatchNormalization` instance round-trips through the sample v2 table. -/
theorem claim9_witness :
    (populate_deserializable_objects envW true none = .ok stW ∧
     faithfulIn (tableOf stW)
       (.node denseObj (.cons "inner" (.node bn2Obj .nil) .nil)) = true) ∧
    deserialize envW true none
        (serialize (.node denseObj (.cons "inner" (.node bn2Obj .nil) .nil)))
        [] =
      .ok (stW, .ok (.node denseObj (.cons "inner" (.node bn2Obj .nil) .nil))) :=
  ⟨⟨rfl, rfl⟩,
   claim9_round_trip envW true none stW
     (.node denseObj (.cons "inner" (.node bn2Obj .nil) .nil)) rfl rfl⟩

/-- C2 counterexample: with the mode flag active, the table maps the legacy
tag `"BatchNormalizationV1"` to the v1 class
(`normalization.BatchNormalization`) while `"BatchNormalization"` was
overwritten by the v2 class — the alias does NOT equal the canonical entry
for every mode-flag value. -/
theorem claim2_counterexample :
    populate_deserializable_objects envW true none = .ok stW ∧
    dlookup (tableOf stW) "BatchNormalizationV1" = some bn1Obj ∧
    dlookup (tableOf stW) "BatchNormalization" = some bn2Obj ∧
    dlookup (tableOf stW) "BatchNormalizationV1" ≠
      dlookup (tableOf stW) "BatchNormalization" :=
  ⟨rfl, rfl, rfl, by decide⟩

/-- C2 amended: the alias `"BatchNormalizationV1"` always points at
`normalization.BatchNormalization` (inserted after the module passes); it
equals the `"BatchNormalization"` entry when the mode flag is inactive and
the baseline set binds that name to the same v1 class — under the active
flag the canonical entry is the v2 class instead. -/
theorem claim2_alias_amended (env : Env) (st' : LocalState)
    (hreb : rebuild env false = .ok st')
    (hbase : dlookup (moduleStage env false) "BatchNormalization" =
      some env.normalization_BatchNormalization) :
    dlookup (tableOf st') "BatchNormalizationV1" =
      some env.normalization_BatchNormalization ∧
    dlookup (tableOf st') "BatchNormalizationV1" =
      dlookup (tableOf st') "BatchNormalization" := by
  obtain ⟨li, df, hli, hdf, hst⟩ := rebuild_ok env false st' hreb
  subst hst
  obtain ⟨l1, -⟩ := injectStage_lookups env false li df
  have hBN : dlookup (injectStage env false li df) "BatchNormalization" =
      some env.normalization_BatchNormalization := by
    rw [dlookup_injectStage env false li df "BatchNormalization" (by decide)]
    exact hbase
  simp only [tableOf, Option.getD_some]
  exact ⟨l1, by rw [l1, hBN]⟩

/-- Witness for C2 (amended): the sample v1-mode build. -/
theorem claim2_witness :
    (rebuild envW false = .ok (residual (populate_deserializable_objects
       envW false none)) ∧
     dlookup (moduleStage envW false) "BatchNormalization" =
       some envW.normalization_BatchNormalization) ∧
    (dlookup (tableOf (residual (populate_deserializable_objects envW false
         none))) "BatchNormalizationV1" =
       some envW.normalization_BatchNormalization ∧
     dlookup (tableOf (residual (populate_deserializable_objects envW false
         none))) "BatchNormalizationV1" =
       dlookup (tableOf (residual (populate_deserializable_objects envW false
         none))) "BatchNormalization") :=
  ⟨⟨rfl, rfl⟩,
   claim2_alias_amended envW
     (residual (populate_deserializable_objects envW false none)) rfl rfl⟩

/-- C3 counterexample: when the late-bound import block fails during a
mode-change rebuild, the error does NOT leave the old state: the residual
state differs from the pre-call state in both table and marker (the old
table was discarded and the marker already updated). -/
theorem claim3_counterexample :
    raised (populate_deserializable_objects envBadLate true stOld) = true ∧
    residual (populate_deserializable_objects envBadLate true stOld) ≠ stOld ∧
    markerOf (residual (populate_deserializable_objects envBadLate true
      stOld)) ≠ markerOf stOld ∧
    tableOf (residual (populate_deserializable_objects envBadLate true
      stOld)) ≠ tableOf stOld :=
  ⟨rfl, by decide, by decide, by decide⟩

/-- C3 amended: a population error leaves the state already partially
updated, not untouched: the marker records the in-progress mode, and (for a
failure of the late-bound import block) the table is the partial build up to
that point — the module passes plus the two aliases — the old table having
been discarded at the start of the rebuild. -/
theorem claim3_error_state_amended (env : Env) (tf2 : Bool)
    (st s : LocalState)
    (herr : populate_deserializable_objects env tf2 st = .error s)
    (hlate : env.late = none) :
    markerOf s = some tf2 ∧ tableOf s = aliasStage env tf2 := by
  rw [populate_eq] at herr
  by_cases hc : (st.getD ([], none)).1 ≠ [] ∧ (st.getD ([], none)).2 = some tf2
  · rw [if_pos hc] at herr
    exact absurd herr (by simp)
  · rw [if_neg hc] at herr
    unfold rebuild at herr
    rw [hlate] at herr
    simp only [Except.error.injEq] at herr
    subst herr
    exact ⟨rfl, rfl⟩

/-- Witness for C3 (amended): the failing late import in the sample
environment. -/
theorem claim3_witness :
    (populate_deserializable_objects envBadLate true stOld =
       .error (residual (populate_deserializable_objects envBadLate true
         stOld)) ∧
     envBadLate.late = none) ∧
    (markerOf (residual (populate_deserializable_objects envBadLate true
       stOld)) = some true ∧
     tableOf (residual (populate_deserializable_objects envBadLate true
       stOld)) = aliasStage envBadLate true) :=
  ⟨⟨rfl, rfl⟩,
   claim3_error_state_amended envBadLate true stOld
     (residual (populate_deserializable_objects envBadLate true stOld))
     rfl rfl⟩

end KerasSer
